/-
Verification of the race physics and progression engine of the potato
racing game.  The definitions below are shallow embeddings of the
JavaScript sources:

  * `hitStep`, `runHits`          — `Potato.updateRaceProgress` / `Potato.completeLap`
                                    (src/spacepotato/src/components/powerup.js)
  * `getPowerupDuration`,
    `addPowerupList`,
    `updatePowerups`              — `Potato.getPowerupDuration` / `Potato.addPowerup` /
                                    `Potato.updatePowerups` (same file)
  * `getSpeed`, `limitSpeed`,
    `checkCircleCollision`,
    `resolveCollision`,
    `updatePhysics`               — `Physics.*` (src/spacepotato/src/utils/physics.js)
  * `spriteUpdate`                — `Sprite.update` (src/unnamed/part_002, sprite.js)
  * `closestPointOnSegment`,
    `pointToLineDistance`,
    `lineCircleCollision`,
    `checkBoundaryCollision`      — `Track.*` (src/unnamed/part_001, track.js)

JavaScript numbers are modelled as `ℚ` where the code only uses field
operations and as `ℝ` where it takes square roots or real powers.
JavaScript's `x || d` default-on-falsy idiom becomes
`if x = 0 then d else x`, and a JS division whose divisor can be zero is
modelled by Lean's total division (the affected degenerate cases are
spelled out in the theorems).
-/
import Mathlib

/-! ### Race progression state machine

`Potato.updateRaceProgress` (powerup.js, lines 892-912) reacts to a
checkpoint hit of index `i` as follows: if `i === (this.checkpoint + 1) %
track.checkpoints.length` it stores `this.checkpoint = i`; additionally,
when `i === 0` it either runs `completeLap` (`this.lap++`, lines 917-939)
when `this.lap > 0`, or starts the first lap with `this.lap = 1`.
All other hits are ignored.  Only the `checkpoint`/`lap` fields take part
in the claims, so the state is restricted to them. -/

/-- The checkpoint/lap progression state of one racer
(`this.checkpoint`, `this.lap` in potato.js). -/
structure RaceState where
  checkpoint : ℕ
  lap : ℕ
deriving DecidableEq, Repr

/-- One checkpoint hit of index `i` against a track with `N` checkpoints:
the body of `Potato.updateRaceProgress` after `checkCheckpoint` reported a
hit of index `i`.  (For `N = 0` JavaScript computes `(checkpoint + 1) % 0
= NaN`, which compares unequal to every index, so all theorems assume
`0 < N`.) -/
def hitStep (N : ℕ) (s : RaceState) (i : ℕ) : RaceState :=
  if i = (s.checkpoint + 1) % N then
    if i = 0 ∧ 0 < s.lap then { checkpoint := i, lap := s.lap + 1 }
    else if i = 0 then { checkpoint := i, lap := 1 }
    else { checkpoint := i, lap := s.lap }
  else s

/-- A whole sequence of checkpoint hits, processed in order. -/
def runHits (N : ℕ) (s : RaceState) (hits : List ℕ) : RaceState :=
  hits.foldl (hitStep N) s

/-- Total race progress: laps are worth `N` checkpoints each. -/
def progress (N : ℕ) (s : RaceState) : ℕ :=
  s.lap * N + s.checkpoint

/-- The race state installed by the `Potato` constructor
(`this.checkpoint = 0; this.lap = 0;`). -/
def potatoInitRace : RaceState :=
  { checkpoint := 0, lap := 0 }

/-- Statement of claim C1, for a track with `N` checkpoints and a hit
sequence `hits` processed from the initial racer state:
1. an out-of-order hit leaves the state unchanged;
2. every in-order hit advances the total progress `lap * N + checkpoint`
   by exactly one, and out-of-order hits do not advance it, so the
   checkpoint index only ever advances to `(checkpoint + 1) % N`;
3. progress is monotone along the run; and
4. before the lap counter can exceed a value `L`, the checkpoint index
   visited every `j < N` while the lap counter was exactly `L` — together
   with 2 and 3 this is the anti-shortcut guarantee: `lap` increases only
   after `checkpoint` has stepped through `0, 1, …, N-1` in order since
   the previous lap increment. -/
def raceProgressClaim (N : ℕ) (hits : List ℕ) : Prop :=
  (∀ (s : RaceState) (i : ℕ), i ≠ (s.checkpoint + 1) % N → hitStep N s i = s) ∧
  (∀ (s : RaceState) (i : ℕ), s.checkpoint < N →
      progress N (hitStep N s i) =
        progress N s + (if i = (s.checkpoint + 1) % N then 1 else 0)) ∧
  (∀ p q : List ℕ, p ++ q = hits →
      progress N (runHits N potatoInitRace p) ≤
        progress N (runHits N potatoInitRace hits)) ∧
  (∀ L j : ℕ, j < N → L < (runHits N potatoInitRace hits).lap →
      ∃ p q : List ℕ, p ++ q = hits ∧
        (runHits N potatoInitRace p).lap = L ∧
        (runHits N potatoInitRace p).checkpoint = j)

/-! ### Power-up lifecycle

`Potato.addPowerup` (powerup.js, lines 995-1027) refreshes the
`timeRemaining` of the first held entry of the collected kind, or appends
a fresh entry; `Potato.getPowerupDuration` (lines 1052-1059) looks the
duration up in `CONFIG.POWERUPS` (config.js: boost 3000, shield 5000,
ghost 3000, oil 5000, shrink 4000) and falls back to 3000.
`Potato.updatePowerups` (lines 944-970) decrements every entry by
`deltaTime * 1000`, drops the non-positive ones, recomputes `isShielded`,
and sets the sprite size from the size-reduction state. -/

/-- One entry of `this.activePowerups`: `{ type, timeRemaining }`. -/
structure ActivePowerup where
  type : String
  timeRemaining : ℚ
deriving DecidableEq, Repr

/-- `Potato.getPowerupDuration`: scan of `CONFIG.POWERUPS` in key order
(SPEED_BOOST `boost`, SHIELD `shield`, GHOST `ghost`, OIL_SLICK `oil`,
SIZE_REDUCTION `shrink`) returning the matching `duration`, default
3000. -/
def getPowerupDuration (t : String) : ℚ :=
  if t = "boost" then 3000
  else if t = "shield" then 5000
  else if t = "ghost" then 3000
  else if t = "oil" then 5000
  else if t = "shrink" then 4000
  else 3000

/-- The `activePowerups` effect of `Potato.addPowerup`: `findIndex` of the
first entry of kind `t` and reset of its `timeRemaining`, or `push` of a
fresh entry at the end.  (The oil-slick branch of `addPowerup` only
builds a return value for the caller; it does not touch the list.) -/
def addPowerupList (t : String) : List ActivePowerup → List ActivePowerup
  | [] => [{ type := t, timeRemaining := getPowerupDuration t }]
  | p :: rest =>
    if p.type = t then { p with timeRemaining := getPowerupDuration t } :: rest
    else p :: addPowerupList t rest

/-- The fields of a `Potato` read and written by `updatePowerups`. -/
structure PotatoState where
  activePowerups : List ActivePowerup
  isShielded : Bool
  width : ℚ
  height : ℚ
  colliderRadius : ℚ
deriving DecidableEq, Repr

/-- `Potato.updatePowerups`: the in-place `filter` that first mutates
`timeRemaining` is modelled as a map followed by a filter; then
`isShielded` and the size/collider fields are recomputed.
(`CONFIG.POWERUPS.SHIELD.id = "shield"`,
`CONFIG.POWERUPS.SIZE_REDUCTION.id = "shrink"`.) -/
def updatePowerups (s : PotatoState) (deltaTime : ℚ) : PotatoState :=
  let updated :=
    (s.activePowerups.map
        (fun p => { p with timeRemaining := p.timeRemaining - deltaTime * 1000 })).filter
      (fun p => 0 < p.timeRemaining)
  let shielded := updated.any (fun p => p.type = "shield")
  let hasSizeReduction := updated.any (fun p => p.type = "shrink")
  if hasSizeReduction then
    { activePowerups := updated, isShielded := shielded,
      width := 30, height := 22.5, colliderRadius := 15 }
  else
    { activePowerups := updated, isShielded := shielded,
      width := 40, height := 30, colliderRadius := 20 }

/-- Number of active entries of kind `k` held by a racer. -/
def kindCount (k : String) (l : List ActivePowerup) : ℕ :=
  (l.filter (fun p => p.type = k)).length

/-- The `PotatoState` fields as set by the `Potato` constructor
(`this.activePowerups = []`, `this.isShielded = false`,
`this.width = 40`, `this.height = 60`, `this.collider.radius = 25`). -/
def potatoInitState : PotatoState :=
  { activePowerups := [], isShielded := false,
    width := 40, height := 60, colliderRadius := 25 }

/-- Statement of claim C3: starting from any racer holding at most one
entry per kind, both `addPowerup` and `updatePowerups` keep at most one
entry per kind, re-collecting a kind resets the held entry to the full
duration of the definition table, and that duration is 3000 ms for the
speed boost. -/
def powerupUniqueClaim (s : PotatoState) (t : String) (dt : ℚ) : Prop :=
  getPowerupDuration "boost" = 3000 ∧
  ((∀ k, kindCount k s.activePowerups ≤ 1) →
    (∀ k, kindCount k (addPowerupList t s.activePowerups) ≤ 1) ∧
    (∀ k, kindCount k (updatePowerups s dt).activePowerups ≤ 1) ∧
    (∀ p ∈ addPowerupList t s.activePowerups,
        p.type = t → p.timeRemaining = getPowerupDuration t))

/-! ### Vectors and rigid-body motion (physics.js, sprite.js)

The remaining code takes square roots (`Math.sqrt`) and real powers
(`Math.pow`), so it is embedded over `ℝ` and the definitions are
noncomputable. -/

noncomputable section

/-- A JavaScript `{x, y}` pair. -/
@[ext] structure Vec2 where
  x : ℝ
  y : ℝ

/-- `Physics.getSpeed` applied to a velocity vector:
`Math.sqrt(vx * vx + vy * vy)`. -/
def getSpeed (v : Vec2) : ℝ :=
  Real.sqrt (v.x * v.x + v.y * v.y)

/-- `Physics.limitSpeed`: if `currentSpeed > maxSpeed`, scale both
velocity components by `maxSpeed / currentSpeed`. -/
def limitSpeed (v : Vec2) (maxSpeed : ℝ) : Vec2 :=
  if maxSpeed < getSpeed v then
    let r := maxSpeed / getSpeed v
    { x := v.x * r, y := v.y * r }
  else v

/-- A circle passed to `Physics.checkCircleCollision`
(`{position, radius}`). -/
structure CircleShape where
  pos : Vec2
  radius : ℝ

/-- The payload of a colliding result (`normal`, `overlap`, `point`);
a JavaScript `{colliding: false}` result is modelled as `none`. -/
structure CircleHit where
  normal : Vec2
  overlap : ℝ
  point : Vec2

/-- Squared Euclidean norm of a vector; a vector is a unit vector iff
this is 1. -/
def vecNormSq (v : Vec2) : ℝ :=
  v.x * v.x + v.y * v.y

/-- `Physics.checkCircleCollision`: colliding iff
`distance < a.radius + b.radius`; the normal divides by
`(distance || 1)`, i.e. by 1 when the distance is zero. -/
def checkCircleCollision (a b : CircleShape) : Option CircleHit :=
  let dx := b.pos.x - a.pos.x
  let dy := b.pos.y - a.pos.y
  let distance := Real.sqrt (dx * dx + dy * dy)
  let minDistance := a.radius + b.radius
  if distance < minDistance then
    let div := if distance = 0 then 1 else distance
    let nx := dx / div
    let ny := dy / div
    some { normal := { x := nx, y := ny },
           overlap := minDistance - distance,
           point := { x := a.pos.x + nx * a.radius, y := a.pos.y + ny * a.radius } }
  else none

/-- A body passed to `Physics.resolveCollision` (`position`, `velocity`,
`mass`, `restitution`; the JavaScript `restitution !== undefined ? … :
0.5` defaults do not arise because the field always exists here). -/
structure Body where
  position : Vec2
  velocity : Vec2
  mass : ℝ
  restitution : ℝ

/-- The JavaScript `mass || 1` guard: mass 0 is treated as 1. -/
def massOr1 (m : ℝ) : ℝ :=
  if m = 0 then 1 else m

/-- `Physics.resolveCollision`: skip when the relative velocity along the
normal is strictly positive (`if (dotProduct > 0) return`), otherwise
apply the impulse to both velocities and, when `collision.overlap` is
truthy (nonzero), push the positions apart by 20 % of the overlap split
by mass ratio. -/
def resolveCollision (a b : Body) (col : CircleHit) : Body × Body :=
  let relVelX := a.velocity.x - b.velocity.x
  let relVelY := a.velocity.y - b.velocity.y
  let dotProduct := relVelX * col.normal.x + relVelY * col.normal.y
  if 0 < dotProduct then (a, b)
  else
    let restit := min a.restitution b.restitution
    let ma := massOr1 a.mass
    let mb := massOr1 b.mass
    let impulseMag := -(1 + restit) * dotProduct / (1 / ma + 1 / mb)
    let impulseX := impulseMag * col.normal.x
    let impulseY := impulseMag * col.normal.y
    let aVel : Vec2 := { x := a.velocity.x + impulseX / ma, y := a.velocity.y + impulseY / ma }
    let bVel : Vec2 := { x := b.velocity.x - impulseX / mb, y := b.velocity.y - impulseY / mb }
    if col.overlap = 0 then
      ({ a with velocity := aVel }, { b with velocity := bVel })
    else
      let correction := col.overlap * 0.2
      let aPos : Vec2 :=
        { x := a.position.x + col.normal.x * correction * mb / (ma + mb),
          y := a.position.y + col.normal.y * correction * mb / (ma + mb) }
      let bPos : Vec2 :=
        { x := b.position.x - col.normal.x * correction * ma / (ma + mb),
          y := b.position.y - col.normal.y * correction * ma / (ma + mb) }
      ({ position := aPos, velocity := aVel, mass := a.mass, restitution := a.restitution },
       { position := bPos, velocity := bVel, mass := b.mass, restitution := b.restitution })

/-- A body passed to `Physics.updatePhysics` (all optional JavaScript
fields — `angularVelocity`, `friction` — are present on every racer, so
they are plain fields here). -/
structure PhysBody where
  position : Vec2
  velocity : Vec2
  acceleration : Vec2
  rotation : ℝ
  angularVelocity : ℝ
  friction : ℝ

/-- `Physics.updatePhysics`: Euler integration followed by the
exponential friction factor `Math.pow(1 - friction, dt)` applied to the
velocity and the angular velocity.  (`^` is the real power
`Real.rpow`.) -/
def updatePhysics (o : PhysBody) (dt : ℝ) : PhysBody :=
  let vx := o.velocity.x + o.acceleration.x * dt
  let vy := o.velocity.y + o.acceleration.y * dt
  let px := o.position.x + vx * dt
  let py := o.position.y + vy * dt
  let rot := o.rotation + o.angularVelocity * dt
  let frictionFactor := (1 - o.friction) ^ dt
  { position := { x := px, y := py },
    velocity := { x := vx * frictionFactor, y := vy * frictionFactor },
    acceleration := o.acceleration,
    rotation := rot,
    angularVelocity := o.angularVelocity * frictionFactor,
    friction := o.friction }

/-- The physics fields of a `Sprite` (sprite.js constructor; `friction`
defaults to 0.98 there). -/
structure SpriteBody where
  position : Vec2
  velocity : Vec2
  acceleration : Vec2
  rotation : ℝ
  angularVelocity : ℝ
  friction : ℝ

/-- `Sprite.update` (sprite.js, lines 105-155): Euler integration, then
`velocity *= friction` — a fixed per-tick factor that ignores
`deltaTime` — then the acceleration is reset to zero. -/
def spriteUpdate (s : SpriteBody) (dt : ℝ) : SpriteBody :=
  let vx := s.velocity.x + s.acceleration.x * dt
  let vy := s.velocity.y + s.acceleration.y * dt
  let px := s.position.x + vx * dt
  let py := s.position.y + vy * dt
  let rot := s.rotation + s.angularVelocity * dt
  { position := { x := px, y := py },
    velocity := { x := vx * s.friction, y := vy * s.friction },
    acceleration := { x := 0, y := 0 },
    rotation := rot,
    angularVelocity := s.angularVelocity,
    friction := s.friction }

/-! ### Track boundary collision (track.js) -/

/-- The shared closest-point computation of `Track.pointToLineDistance`
and `Track.lineCircleCollision` (both compute `param = dot / lenSq` when
`lenSq !== 0`, else `-1`, and clamp to the segment ends). -/
def closestPointOnSegment (p a b : Vec2) : Vec2 :=
  let bigA := p.x - a.x
  let bigB := p.y - a.y
  let bigC := b.x - a.x
  let bigD := b.y - a.y
  let dot := bigA * bigC + bigB * bigD
  let lenSq := bigC * bigC + bigD * bigD
  let param := if lenSq = 0 then -1 else dot / lenSq
  if param < 0 then a
  else if 1 < param then b
  else { x := a.x + param * bigC, y := a.y + param * bigD }

/-- `Track.pointToLineDistance`: distance from `p` to the closest point
of segment `[a, b]`. -/
def pointToLineDistance (p a b : Vec2) : ℝ :=
  let c := closestPointOnSegment p a b
  Real.sqrt ((p.x - c.x) * (p.x - c.x) + (p.y - c.y) * (p.y - c.y))

/-- `Track.lineCircleCollision`: not colliding when
`distance >= radius`; otherwise the normal is the vector from the
closest point to the circle center divided by its length (the division
is unguarded in the source; for a center on the segment JavaScript
produces `NaN`, modelled by Lean's `x / 0 = 0`). -/
def lineCircleCollision (a b center : Vec2) (radius : ℝ) : Option CircleHit :=
  let distance := pointToLineDistance center a b
  if radius ≤ distance then none
  else
    let cp := closestPointOnSegment center a b
    let nx := center.x - cp.x
    let ny := center.y - cp.y
    let nl := Real.sqrt (nx * nx + ny * ny)
    some { normal := { x := nx / nl, y := ny / nl },
           overlap := radius - distance,
           point := cp }

/-- The result object of `Track.checkBoundaryCollision`; the initial
accumulator has no `point` property, hence the `Option`. -/
structure BoundaryCollision where
  colliding : Bool
  normal : Vec2
  overlap : ℝ
  point : Option Vec2

/-- The initial accumulator
`{colliding: false, normal: {x: 0, y: 0}, overlap: 0}`. -/
def noBoundaryCollision : BoundaryCollision :=
  { colliding := false, normal := { x := 0, y := 0 }, overlap := 0, point := none }

/-- The loop body of `Track.checkBoundaryCollision`: keep the new
collision when the accumulator is not yet colliding or has a strictly
smaller overlap. -/
def boundaryFold (center : Vec2) (radius : ℝ) (acc : BoundaryCollision)
    (seg : Vec2 × Vec2) : BoundaryCollision :=
  match lineCircleCollision seg.1 seg.2 center radius with
  | some hit =>
    if acc.colliding = false ∨ acc.overlap < hit.overlap then
      { colliding := true, normal := hit.normal, overlap := hit.overlap,
        point := some hit.point }
    else acc
  | none => acc

/-- `Track.checkBoundaryCollision`: fold over
`[...innerBoundarySegments, ...outerBoundarySegments]`. -/
def checkBoundaryCollision (inner outer : List (Vec2 × Vec2)) (center : Vec2)
    (radius : ℝ) : BoundaryCollision :=
  (inner ++ outer).foldl (boundaryFold center radius) noBoundaryCollision

end

/-! ### Claim statements

Each claim of the specification is phrased as a `Prop` over the
embeddings above; the theorems below prove them. -/

/-- Statement of claim C4 (amended to nonnegative speed caps): when the
current speed exceeds `m`, `limitSpeed` rescales the velocity by a
nonnegative factor so that the speed becomes exactly `m`; otherwise the
velocity is untouched. -/
def limitSpeedCapsClaim (v : Vec2) (m : ℝ) : Prop :=
  (m < getSpeed v → getSpeed (limitSpeed v m) = m ∧
    ∃ c : ℝ, 0 ≤ c ∧ limitSpeed v m = { x := c * v.x, y := c * v.y }) ∧
  (getSpeed v ≤ m → limitSpeed v m = v)

/-- Statement of claim C5 (amended to nonnegative speed caps):
`limitSpeed` is idempotent. -/
def limitSpeedIdemClaim (v : Vec2) (m : ℝ) : Prop :=
  limitSpeed (limitSpeed v m) m = limitSpeed v m

/-- Statement of claim C2 (amended to `Physics.updatePhysics`): the
velocity after `updatePhysics` is the integrated velocity scaled by the
exponential factor `(1 - friction) ^ dt`, and for a coasting body
(`acceleration = 0`, `friction < 1`) two consecutive updates over `dt₁`
and `dt₂` produce the same velocity as one update over `dt₁ + dt₂`
(frame-rate independence). -/
def physExponentialClaim (o : PhysBody) (dt₁ dt₂ : ℝ) : Prop :=
  ((updatePhysics o dt₁).velocity.x =
      (o.velocity.x + o.acceleration.x * dt₁) * (1 - o.friction) ^ dt₁ ∧
    (updatePhysics o dt₁).velocity.y =
      (o.velocity.y + o.acceleration.y * dt₁) * (1 - o.friction) ^ dt₁) ∧
  (0 < 1 - o.friction → o.acceleration = { x := 0, y := 0 } →
    (updatePhysics (updatePhysics o dt₁) dt₂).velocity =
      (updatePhysics o (dt₁ + dt₂)).velocity)

/-- Statement of claim C6 (amended for coincident centers): collision
detection is symmetric, the two normals are componentwise negations of
each other, and they are unit vectors whenever the centers are
distinct. -/
def circleSymmClaim (a b : CircleShape) : Prop :=
  (checkCircleCollision a b).isSome = (checkCircleCollision b a).isSome ∧
  ∀ ha hb : CircleHit, checkCircleCollision a b = some ha →
    checkCircleCollision b a = some hb →
    (ha.normal.x = -hb.normal.x ∧ ha.normal.y = -hb.normal.y ∧
      (a.pos ≠ b.pos → vecNormSq ha.normal = 1))

/-- Statement of claim C7 (amended): for coincident centers and positive
combined radius, `checkCircleCollision` reports the collision without any
division by zero (the divisor falls back to 1), but the returned normal
is the zero vector — not a unit vector. -/
def coincidentCircleClaim (a b : CircleShape) : Prop :=
  checkCircleCollision a b =
    some { normal := { x := 0, y := 0 }, overlap := a.radius + b.radius,
           point := a.pos } ∧
  vecNormSq { x := (0 : ℝ), y := 0 } = 0

/-- Statement of claim C8 (amended to the strict inequality actually
tested by the code): when the relative velocity along the normal is
strictly positive, `resolveCollision` returns both bodies unchanged; when
it is zero, the impulse vanishes and both velocities are unchanged (the
positional correction, however, still runs — see the counterexample). -/
def resolveSkipClaim (a b : Body) (col : CircleHit) : Prop :=
  (0 < (a.velocity.x - b.velocity.x) * col.normal.x +
        (a.velocity.y - b.velocity.y) * col.normal.y →
    resolveCollision a b col = (a, b)) ∧
  ((a.velocity.x - b.velocity.x) * col.normal.x +
        (a.velocity.y - b.velocity.y) * col.normal.y = 0 →
    (resolveCollision a b col).1.velocity = a.velocity ∧
    (resolveCollision a b col).2.velocity = b.velocity)

/-- Statement of claim C9: `checkBoundaryCollision` tests every inner and
outer segment; if none collides it returns the non-colliding default; if
any collides, it returns a colliding result realized by one of the
segments whose overlap is at least the overlap of every colliding
segment. -/
def boundaryDeepestClaim (inner outer : List (Vec2 × Vec2)) (center : Vec2)
    (radius : ℝ) : Prop :=
  ((∀ seg ∈ inner ++ outer,
      lineCircleCollision seg.1 seg.2 center radius = none) →
    checkBoundaryCollision inner outer center radius = noBoundaryCollision) ∧
  (∀ seg ∈ inner ++ outer, ∀ h : CircleHit,
      lineCircleCollision seg.1 seg.2 center radius = some h →
      (checkBoundaryCollision inner outer center radius).colliding = true ∧
      h.overlap ≤ (checkBoundaryCollision inner outer center radius).overlap) ∧
  ((checkBoundaryCollision inner outer center radius).colliding = true →
    ∃ seg ∈ inner ++ outer, ∃ h : CircleHit,
      lineCircleCollision seg.1 seg.2 center radius = some h ∧
      (checkBoundaryCollision inner outer center radius).normal = h.normal ∧
      (checkBoundaryCollision inner outer center radius).overlap = h.overlap ∧
      (checkBoundaryCollision inner outer center radius).point = some h.point)

/-- Statement of claim C10: after any `updatePowerups` call the collider
radius is 15 (width 30, height 22.5) when a size-reduction entry is
active and 20 (width 40, height 30) otherwise, so the constructor's
initial radius 25 never survives an update tick. -/
def colliderRadiusClaim (s : PotatoState) (dt : ℚ) : Prop :=
  potatoInitState.colliderRadius = 25 ∧
  (((updatePowerups s dt).activePowerups.any (fun p => p.type = "shrink")) = true →
    (updatePowerups s dt).colliderRadius = 15 ∧
    (updatePowerups s dt).width = 30 ∧ (updatePowerups s dt).height = 22.5) ∧
  (((updatePowerups s dt).activePowerups.any (fun p => p.type = "shrink")) = false →
    (updatePowerups s dt).colliderRadius = 20 ∧
    (updatePowerups s dt).width = 40 ∧ (updatePowerups s dt).height = 30) ∧
  (updatePowerups s dt).colliderRadius ≠ 25

/-- The concrete sprite used to refute claim C2 as stated: default
friction 0.98, velocity (100, 0), no acceleration. -/
def spriteFrictionCexBody : SpriteBody :=
  { position := { x := 0, y := 0 }, velocity := { x := 100, y := 0 },
    acceleration := { x := 0, y := 0 }, rotation := 0,
    angularVelocity := 0, friction := 0.98 }

/-- A concrete coasting body (no acceleration, friction 0.5) used to
instantiate the exponential-friction theorem. -/
def physWitnessBody : PhysBody :=
  { position := { x := 0, y := 0 }, velocity := { x := 3, y := 4 },
    acceleration := { x := 0, y := 0 }, rotation := 0,
    angularVelocity := 0, friction := 0.5 }

/-- First body of the concrete C8 counterexample: at rest at the
origin. -/
def resolveCexBodyA : Body :=
  { position := { x := 0, y := 0 }, velocity := { x := 0, y := 0 },
    mass := 1, restitution := 0.5 }

/-- Second body of the concrete C8 counterexample: at rest at
`(1, 0)`. -/
def resolveCexBodyB : Body :=
  { position := { x := 1, y := 0 }, velocity := { x := 0, y := 0 },
    mass := 1, restitution := 0.5 }

/-- The collision record fed to `resolveCollision` in the C8
counterexample: unit normal `(1, 0)`, overlap 1. -/
def resolveCexHit : CircleHit :=
  { normal := { x := 1, y := 0 }, overlap := 1, point := { x := 0, y := 0 } }

/-! ### Theorems: race progression (claim C1) -/

theorem hitStep_checkpoint_lt (N : ℕ) (hN : 0 < N) (s : RaceState) (i : ℕ)
    (h : s.checkpoint < N) : (hitStep N s i).checkpoint < N := by
  unfold hitStep
  split_ifs with h1 h2 h3
  · simp only [h1]
    exact Nat.mod_lt _ hN
  · simp only [h1]
    exact Nat.mod_lt _ hN
  · simp only [h1]
    exact Nat.mod_lt _ hN
  · exact h

theorem hitStep_progress (N : ℕ) (s : RaceState) (i : ℕ)
    (h : s.checkpoint < N) :
    progress N (hitStep N s i) =
      progress N s + (if i = (s.checkpoint + 1) % N then 1 else 0) := by
  by_cases h1 : i = (s.checkpoint + 1) % N
  · rw [if_pos h1]
    by_cases h0 : i = 0
    · have hdvd : N ∣ s.checkpoint + 1 := by
        apply Nat.dvd_of_mod_eq_zero
        rw [← h1, h0]
      have hle : N ≤ s.checkpoint + 1 := Nat.le_of_dvd (Nat.succ_pos _) hdvd
      have heq : s.checkpoint + 1 = N := le_antisymm (by omega) hle
      unfold hitStep
      rw [if_pos h1]
      by_cases hl : 0 < s.lap
      · rw [if_pos ⟨h0, hl⟩]
        simp only [progress, h0, ← heq]
        ring
      · rw [if_neg (fun hc => hl hc.2), if_pos h0]
        have hlap : s.lap = 0 := by omega
        simp only [progress, h0, hlap, ← heq]
        ring
    · have hlt : s.checkpoint + 1 < N := by
        rcases Nat.lt_or_ge (s.checkpoint + 1) N with hc | hc
        · exact hc
        · have he : s.checkpoint + 1 = N := le_antisymm (by omega) hc
          rw [h1, he, Nat.mod_self] at h0
          exact absurd rfl h0
      have hi : i = s.checkpoint + 1 := by rw [h1, Nat.mod_eq_of_lt hlt]
      unfold hitStep
      rw [if_pos h1, if_neg (fun hc => h0 hc.1), if_neg h0]
      simp only [progress, hi]
      ring
  · rw [if_neg h1]
    unfold hitStep
    rw [if_neg h1]
    omega

theorem runHits_append (N : ℕ) (s : RaceState) (l₁ l₂ : List ℕ) :
    runHits N s (l₁ ++ l₂) = runHits N (runHits N s l₁) l₂ := by
  simp [runHits, List.foldl_append]

theorem runHits_checkpoint_lt (N : ℕ) (hN : 0 < N) (s : RaceState)
    (h : s.checkpoint < N) (hits : List ℕ) :
    (runHits N s hits).checkpoint < N := by
  induction hits generalizing s with
  | nil => exact h
  | cons i rest ih => exact ih _ (hitStep_checkpoint_lt N hN s i h)

theorem runHits_progress_le (N : ℕ) (hN : 0 < N) (s : RaceState)
    (h : s.checkpoint < N) (hits : List ℕ) :
    progress N s ≤ progress N (runHits N s hits) := by
  induction hits generalizing s with
  | nil => exact le_refl _
  | cons i rest ih =>
    have h1 : progress N s ≤ progress N (hitStep N s i) := by
      rw [hitStep_progress N s i h]
      exact Nat.le_add_right _ _
    exact le_trans h1 (ih _ (hitStep_checkpoint_lt N hN s i h))

theorem runHits_progress_attained (N : ℕ) (hN : 0 < N) (hits : List ℕ) (k : ℕ)
    (hk : k ≤ progress N (runHits N potatoInitRace hits)) :
    ∃ p q : List ℕ, p ++ q = hits ∧ progress N (runHits N potatoInitRace p) = k := by
  induction hits using List.reverseRecOn with
  | nil =>
    have hk0 : k = 0 :=
      Nat.le_zero.mp (by simpa [runHits, progress, potatoInitRace] using hk)
    exact ⟨[], [], rfl, by simp [runHits, progress, potatoInitRace, hk0]⟩
  | append_singleton l i ih =>
    have hinit : potatoInitRace.checkpoint < N := by
      simpa [potatoInitRace] using hN
    have hcp : (runHits N potatoInitRace l).checkpoint < N :=
      runHits_checkpoint_lt N hN _ hinit l
    have hstep := hitStep_progress N (runHits N potatoInitRace l) i hcp
    have happ : runHits N potatoInitRace (l ++ [i]) =
        hitStep N (runHits N potatoInitRace l) i := by
      simp [runHits_append, runHits]
    by_cases hle : k ≤ progress N (runHits N potatoInitRace l)
    · obtain ⟨p, q, hpq, hp⟩ := ih hle
      exact ⟨p, q ++ [i], by rw [← List.append_assoc, hpq], hp⟩
    · refine ⟨l ++ [i], [], by simp, ?_⟩
      rw [happ, hstep] at hk ⊢
      by_cases hc : i = ((runHits N potatoInitRace l).checkpoint + 1) % N
      · rw [if_pos hc] at hk ⊢
        omega
      · rw [if_neg hc] at hk
        omega

/-- Claim C1: out-of-order checkpoint hits never change the racer's
checkpoint/lap state; in-order hits advance the combined progress
`lap * N + checkpoint` by exactly one; progress is monotone along any
hit sequence; and the lap counter passes a value `L` only once the
checkpoint index has taken every value `0, …, N-1` while the lap counter
was `L` — i.e. `lapCount` increases only after the checkpoints were
visited in order since the previous increment. -/
theorem raceProgress_invariant (N : ℕ) (hN : 0 < N) (hits : List ℕ) :
    raceProgressClaim N hits := by
  have hinit : potatoInitRace.checkpoint < N := by
    simpa [potatoInitRace] using hN
  refine ⟨?_, ?_, ?_, ?_⟩
  · intro s i hne
    unfold hitStep
    rw [if_neg hne]
  · intro s i h
    exact hitStep_progress N s i h
  · intro p q hpq
    rw [← hpq, runHits_append]
    exact runHits_progress_le N hN _ (runHits_checkpoint_lt N hN _ hinit p) q
  · intro L j hj hL
    have h2 : L * N + j < (L + 1) * N := by
      rw [add_mul, one_mul]
      omega
    have h3 : (L + 1) * N ≤ (runHits N potatoInitRace hits).lap * N :=
      Nat.mul_le_mul_right N hL
    have hk : L * N + j ≤ progress N (runHits N potatoInitRace hits) := by
      unfold progress
      exact le_trans (le_of_lt (lt_of_lt_of_le h2 h3)) (Nat.le_add_right _ _)
    obtain ⟨p, q, hpq, hp⟩ := runHits_progress_attained N hN hits _ hk
    have hcpp : (runHits N potatoInitRace p).checkpoint < N :=
      runHits_checkpoint_lt N hN _ hinit p
    have hmod : (runHits N potatoInitRace p).checkpoint = j := by
      have e1 := congrArg (fun n => n % N) hp
      simp only [progress] at e1
      rw [Nat.add_comm ((runHits N potatoInitRace p).lap * N) _,
        Nat.add_comm (L * N) j, Nat.add_mul_mod_self_right,
        Nat.add_mul_mod_self_right, Nat.mod_eq_of_lt hcpp,
        Nat.mod_eq_of_lt hj] at e1
      exact e1
    have hlap : (runHits N potatoInitRace p).lap = L := by
      have e2 : (runHits N potatoInitRace p).lap * N = L * N := by
        have := hp
        unfold progress at this
        omega
      exact Nat.eq_of_mul_eq_mul_right hN e2
    exact ⟨p, q, hpq, hlap, hmod⟩

theorem raceProgress_invariant_witness :
    0 < 3 ∧ raceProgressClaim 3 [1, 2, 0, 1, 2, 0] :=
  ⟨by decide, raceProgress_invariant 3 (by decide) [1, 2, 0, 1, 2, 0]⟩

/-! ### Theorems: power-up lifecycle (claims C3, C10) -/

theorem kindCount_nil (k : String) : kindCount k [] = 0 := rfl

theorem kindCount_cons (k : String) (q : ActivePowerup) (rest : List ActivePowerup) :
    kindCount k (q :: rest) = (if q.type = k then 1 else 0) + kindCount k rest := by
  by_cases h : q.type = k <;> simp [kindCount, h, Nat.add_comm]

theorem kindCount_eq_zero (t : String) (l : List ActivePowerup) :
    kindCount t l = 0 ↔ ∀ p ∈ l, p.type ≠ t := by
  induction l with
  | nil => simp [kindCount_nil]
  | cons q rest ih =>
    rw [kindCount_cons]
    by_cases h : q.type = t <;> simp [h, ih]

theorem addPowerupList_of_not_mem (t : String) (l : List ActivePowerup)
    (h : ∀ p ∈ l, p.type ≠ t) :
    addPowerupList t l = l ++ [{ type := t, timeRemaining := getPowerupDuration t }] := by
  induction l with
  | nil => rfl
  | cons q rest ih =>
    have hq : q.type ≠ t := h q (List.mem_cons_self q rest)
    simp only [addPowerupList, if_neg hq, List.cons_append]
    rw [ih (fun p hp => h p (List.mem_cons_of_mem q hp))]

theorem kindCount_add_of_mem (t k : String) (l : List ActivePowerup)
    (hm : ∃ p ∈ l, p.type = t) :
    kindCount k (addPowerupList t l) = kindCount k l := by
  induction l with
  | nil => simp at hm
  | cons q rest ih =>
    by_cases hq : q.type = t
    · simp only [addPowerupList, if_pos hq, kindCount_cons]
    · have hm' : ∃ p ∈ rest, p.type = t := by
        rcases hm with ⟨p, hp, hpt⟩
        rcases List.mem_cons.mp hp with rfl | hmem
        · exact absurd hpt hq
        · exact ⟨p, hmem, hpt⟩
      simp only [addPowerupList, if_neg hq, kindCount_cons, ih hm']

theorem kindCount_append_single (k : String) (l : List ActivePowerup)
    (e : ActivePowerup) :
    kindCount k (l ++ [e]) = kindCount k l + (if e.type = k then 1 else 0) := by
  by_cases h : e.type = k <;> simp [kindCount, List.filter_append, h]

theorem kindCount_addPowerupList_le (t : String) (l : List ActivePowerup)
    (huniq : ∀ k, kindCount k l ≤ 1) (k : String) :
    kindCount k (addPowerupList t l) ≤ 1 := by
  by_cases hm : ∃ p ∈ l, p.type = t
  · rw [kindCount_add_of_mem t k l hm]
    exact huniq k
  · push_neg at hm
    rw [addPowerupList_of_not_mem t l hm, kindCount_append_single]
    by_cases hk : t = k
    · have h0 : kindCount k l = 0 := by
        rw [kindCount_eq_zero]
        intro p hp
        rw [← hk]
        exact hm p hp
      simp [h0, hk]
    · simp only [if_neg hk]
      exact huniq k

theorem addPowerupList_refresh (t : String) (l : List ActivePowerup)
    (huniq : ∀ k, kindCount k l ≤ 1) :
    ∀ p ∈ addPowerupList t l, p.type = t →
      p.timeRemaining = getPowerupDuration t := by
  induction l with
  | nil =>
    intro p hp _
    simp only [addPowerupList, List.mem_singleton] at hp
    rw [hp]
  | cons q rest ih =>
    intro p hp hpt
    by_cases hq : q.type = t
    · simp only [addPowerupList, if_pos hq, List.mem_cons] at hp
      rcases hp with rfl | hmem
      · rfl
      · exfalso
        have h1 := huniq t
        rw [kindCount_cons, if_pos hq] at h1
        have h0 : kindCount t rest = 0 := by omega
        exact (kindCount_eq_zero t rest).mp h0 p hmem hpt
    · simp only [addPowerupList, if_neg hq, List.mem_cons] at hp
      rcases hp with rfl | hmem
      · exact absurd hpt hq
      · have huniq' : ∀ k, kindCount k rest ≤ 1 := by
          intro k
          have := huniq k
          rw [kindCount_cons] at this
          omega
        exact ih huniq' p hmem hpt

theorem kindCount_filter_le (k : String) (g : ActivePowerup → Bool)
    (l : List ActivePowerup) : kindCount k (l.filter g) ≤ kindCount k l := by
  induction l with
  | nil => exact le_refl _
  | cons q rest ih =>
    by_cases hg : g q
    · rw [List.filter_cons_of_pos hg, kindCount_cons, kindCount_cons]
      omega
    · rw [List.filter_cons_of_neg (by simpa using hg), kindCount_cons]
      omega

theorem kindCount_map_decay (k : String) (dt : ℚ) (l : List ActivePowerup) :
    kindCount k (l.map
      (fun p => { p with timeRemaining := p.timeRemaining - dt * 1000 })) =
      kindCount k l := by
  induction l with
  | nil => rfl
  | cons q rest ih =>
    rw [List.map_cons, kindCount_cons, kindCount_cons, ih]

theorem updatePowerups_active (s : PotatoState) (dt : ℚ) :
    (updatePowerups s dt).activePowerups =
      (s.activePowerups.map
        (fun p => { p with timeRemaining := p.timeRemaining - dt * 1000 })).filter
        (fun p => 0 < p.timeRemaining) := by
  simp only [updatePowerups]
  split_ifs <;> rfl

/-- Claim C3: the speed-boost duration is 3000 ms, and when a racer holds
at most one power-up entry per kind, both `addPowerup` and
`updatePowerups` preserve that invariant, while re-collecting a kind
resets its held entry to the full duration from the definition table
(rather than accumulating it). -/
theorem powerup_unique_refresh (s : PotatoState) (t : String) (dt : ℚ) :
    powerupUniqueClaim s t dt := by
  refine ⟨rfl, fun huniq => ⟨?_, ?_, ?_⟩⟩
  · exact kindCount_addPowerupList_le t s.activePowerups huniq
  · intro k
    rw [updatePowerups_active]
    exact le_trans (le_trans (kindCount_filter_le k _ _)
      (le_of_eq (kindCount_map_decay k dt _))) (huniq k)
  · exact addPowerupList_refresh t s.activePowerups huniq

theorem powerup_unique_refresh_witness :
    powerupUniqueClaim
      { activePowerups := [{ type := "boost", timeRemaining := 2000 }],
        isShielded := false, width := 40, height := 30, colliderRadius := 20 }
      "boost" 1 :=
  powerup_unique_refresh _ _ _

/-- Claim C10: after every `updatePowerups` call the collider radius is
exactly 15 (width 30, height 22.5) when a size-reduction power-up is
active and exactly 20 (width 40, height 30) otherwise, so the
constructor's initial collider radius of 25 is overwritten from the
first update tick onward. -/
theorem updatePowerups_collider (s : PotatoState) (dt : ℚ) :
    colliderRadiusClaim s dt := by
  unfold colliderRadiusClaim updatePowerups
  dsimp only
  split_ifs with h
  · refine ⟨rfl, fun _ => ⟨rfl, rfl, rfl⟩, fun hf => ?_, by norm_num⟩
    rw [h] at hf
    cases hf
  · refine ⟨rfl, fun ht => ?_, fun _ => ⟨rfl, rfl, rfl⟩, by norm_num⟩
    rw [ht] at h
    exact absurd rfl h

theorem updatePowerups_collider_witness :
    colliderRadiusClaim potatoInitState (1 / 60) :=
  updatePowerups_collider _ _

/-! ### Theorems: speed limiting (claims C4, C5) -/

theorem getSpeed_nonneg (v : Vec2) : 0 ≤ getSpeed v :=
  Real.sqrt_nonneg _

theorem getSpeed_scale (v : Vec2) (c : ℝ) :
    getSpeed { x := v.x * c, y := v.y * c } = |c| * getSpeed v := by
  unfold getSpeed
  have h : v.x * c * (v.x * c) + v.y * c * (v.y * c) =
      c * c * (v.x * v.x + v.y * v.y) := by ring
  rw [h, Real.sqrt_mul (mul_self_nonneg c), Real.sqrt_mul_self_eq_abs]

theorem getSpeed_limitSpeed (v : Vec2) (m : ℝ) (hm : 0 ≤ m)
    (h : m < getSpeed v) : getSpeed (limitSpeed v m) = m := by
  have hpos : 0 < getSpeed v := lt_of_le_of_lt hm h
  unfold limitSpeed
  rw [if_pos h]
  dsimp only
  rw [getSpeed_scale, abs_of_nonneg (div_nonneg hm (le_of_lt hpos))]
  exact div_mul_cancel₀ m (ne_of_gt hpos)

/-- Claim C4 (amended to nonnegative caps `0 ≤ max`): when the speed
exceeds `max`, `limitSpeed` rescales the velocity by the nonnegative
factor `max / speed` so that the resulting speed is exactly `max` with
the direction preserved; when the speed is at most `max` the velocity is
returned unchanged. -/
theorem limitSpeed_caps (v : Vec2) (m : ℝ) (hm : 0 ≤ m) :
    limitSpeedCapsClaim v m := by
  constructor
  · intro h
    refine ⟨getSpeed_limitSpeed v m hm h,
      m / getSpeed v, div_nonneg hm (getSpeed_nonneg v), ?_⟩
    unfold limitSpeed
    rw [if_pos h]
    dsimp only
    rw [Vec2.mk.injEq]
    constructor <;> ring
  · intro h
    unfold limitSpeed
    rw [if_neg (not_lt.mpr h)]

theorem limitSpeed_caps_witness :
    (0 : ℝ) ≤ 5 ∧ limitSpeedCapsClaim { x := 3, y := 4 } 5 :=
  ⟨by norm_num, limitSpeed_caps _ _ (by norm_num)⟩

/-- Counterexample to claim C4 as stated (quantifying over every `max`):
for the body with velocity `(3, 4)` and `max = -1` the speed exceeds
`max`, but after `limitSpeed` the speed is not `-1` (speeds are never
negative; the velocity in fact gets reversed and capped at `1`). -/
theorem limitSpeed_negative_cap_cex :
    (-1 : ℝ) < getSpeed { x := 3, y := 4 } ∧
    getSpeed (limitSpeed { x := 3, y := 4 } (-1)) ≠ -1 := by
  constructor
  · exact lt_of_lt_of_le (by norm_num) (getSpeed_nonneg _)
  · intro hcontra
    have hge := getSpeed_nonneg (limitSpeed { x := 3, y := 4 } (-1))
    rw [hcontra] at hge
    norm_num at hge

/-- Claim C5 (amended to nonnegative caps `0 ≤ max`): `limitSpeed` is
idempotent. -/
theorem limitSpeed_idem (v : Vec2) (m : ℝ) (hm : 0 ≤ m) :
    limitSpeedIdemClaim v m := by
  unfold limitSpeedIdemClaim
  by_cases h : m < getSpeed v
  · have h3 : ¬ m < getSpeed (limitSpeed v m) := by
      rw [getSpeed_limitSpeed v m hm h]
      exact lt_irrefl m
    conv_lhs => rw [limitSpeed]
    rw [if_neg h3]
  · have hv : limitSpeed v m = v := by
      unfold limitSpeed
      rw [if_neg h]
    rw [hv]
    exact hv

theorem limitSpeed_idem_witness :
    (0 : ℝ) ≤ 5 ∧ limitSpeedIdemClaim { x := 3, y := 4 } 5 :=
  ⟨by norm_num, limitSpeed_idem _ _ (by norm_num)⟩

/-- Counterexample to claim C5 as stated (quantifying over every `max`):
with velocity `(1, 0)` and `max = -1` one application yields `(-1, 0)`
but a second application flips it back to `(1, 0)`, so applying
`limitSpeed` twice differs from applying it once. -/
theorem limitSpeed_not_idem_cex :
    limitSpeed (limitSpeed { x := 1, y := 0 } (-1)) (-1) ≠
      limitSpeed { x := 1, y := 0 } (-1) := by
  have hs1 : getSpeed { x := (1 : ℝ), y := 0 } = 1 := by
    unfold getSpeed
    norm_num
  have h1 : limitSpeed { x := (1 : ℝ), y := 0 } (-1) = { x := -1, y := 0 } := by
    unfold limitSpeed
    rw [if_pos (by rw [hs1]; norm_num)]
    dsimp only
    rw [hs1, Vec2.mk.injEq]
    norm_num
  have hs2 : getSpeed { x := (-1 : ℝ), y := 0 } = 1 := by
    unfold getSpeed
    norm_num
  have h2 : limitSpeed { x := (-1 : ℝ), y := 0 } (-1) = { x := 1, y := 0 } := by
    unfold limitSpeed
    rw [if_pos (by rw [hs2]; norm_num)]
    dsimp only
    rw [hs2, Vec2.mk.injEq]
    norm_num
  rw [h1, h2]
  intro hcontra
  have hx := congrArg Vec2.x hcontra
  norm_num at hx

/-! ### Theorems: circle-circle collision (claims C6, C7) -/

theorem circle_collision_isSome_iff (a b : CircleShape) :
    (checkCircleCollision a b).isSome = true ↔
      Real.sqrt ((b.pos.x - a.pos.x) * (b.pos.x - a.pos.x) +
        (b.pos.y - a.pos.y) * (b.pos.y - a.pos.y)) < a.radius + b.radius := by
  unfold checkCircleCollision
  dsimp only
  by_cases hc : Real.sqrt ((b.pos.x - a.pos.x) * (b.pos.x - a.pos.x) +
      (b.pos.y - a.pos.y) * (b.pos.y - a.pos.y)) < a.radius + b.radius
  · rw [if_pos hc]
    simp [hc]
  · rw [if_neg hc]
    simp [hc]

theorem circle_collision_spec (a b : CircleShape) (ha : CircleHit)
    (h : checkCircleCollision a b = some ha) :
    Real.sqrt ((b.pos.x - a.pos.x) * (b.pos.x - a.pos.x) +
        (b.pos.y - a.pos.y) * (b.pos.y - a.pos.y)) < a.radius + b.radius ∧
    ha.normal.x = (b.pos.x - a.pos.x) /
      (if Real.sqrt ((b.pos.x - a.pos.x) * (b.pos.x - a.pos.x) +
            (b.pos.y - a.pos.y) * (b.pos.y - a.pos.y)) = 0 then 1
        else Real.sqrt ((b.pos.x - a.pos.x) * (b.pos.x - a.pos.x) +
            (b.pos.y - a.pos.y) * (b.pos.y - a.pos.y))) ∧
    ha.normal.y = (b.pos.y - a.pos.y) /
      (if Real.sqrt ((b.pos.x - a.pos.x) * (b.pos.x - a.pos.x) +
            (b.pos.y - a.pos.y) * (b.pos.y - a.pos.y)) = 0 then 1
        else Real.sqrt ((b.pos.x - a.pos.x) * (b.pos.x - a.pos.x) +
            (b.pos.y - a.pos.y) * (b.pos.y - a.pos.y))) := by
  unfold checkCircleCollision at h
  dsimp only at h
  by_cases hc : Real.sqrt ((b.pos.x - a.pos.x) * (b.pos.x - a.pos.x) +
      (b.pos.y - a.pos.y) * (b.pos.y - a.pos.y)) < a.radius + b.radius
  · rw [if_pos hc] at h
    have he := Option.some.inj h
    refine ⟨hc, ?_, ?_⟩ <;> rw [← he]
  · rw [if_neg hc] at h
    cases h

/-- Claim C6 (amended for coincident centers): circle-circle collision
detection is symmetric, the two returned normals are componentwise
negations of each other, and whenever the centers are distinct they are
unit vectors.  (For coincident centers the shared normal is the zero
vector — see the counterexample.) -/
theorem circle_collision_symm (a b : CircleShape) : circleSymmClaim a b := by
  have hsq : (a.pos.x - b.pos.x) * (a.pos.x - b.pos.x) +
      (a.pos.y - b.pos.y) * (a.pos.y - b.pos.y) =
      (b.pos.x - a.pos.x) * (b.pos.x - a.pos.x) +
      (b.pos.y - a.pos.y) * (b.pos.y - a.pos.y) := by ring
  constructor
  · have h1 := circle_collision_isSome_iff a b
    have h2 := circle_collision_isSome_iff b a
    rw [hsq, add_comm b.radius a.radius] at h2
    by_cases hc : Real.sqrt ((b.pos.x - a.pos.x) * (b.pos.x - a.pos.x) +
        (b.pos.y - a.pos.y) * (b.pos.y - a.pos.y)) < a.radius + b.radius
    · rw [h1.mpr hc, h2.mpr hc]
    · have g1 : (checkCircleCollision a b).isSome ≠ true := fun hx => hc (h1.mp hx)
      have g2 : (checkCircleCollision b a).isSome ≠ true := fun hx => hc (h2.mp hx)
      rw [Bool.eq_false_iff.mpr g1, Bool.eq_false_iff.mpr g2]
  · intro ha hb hA hB
    obtain ⟨hcA, hxA, hyA⟩ := circle_collision_spec a b ha hA
    obtain ⟨hcB, hxB, hyB⟩ := circle_collision_spec b a hb hB
    rw [hsq] at hxB hyB
    rw [show a.pos.x - b.pos.x = -(b.pos.x - a.pos.x) from by ring] at hxB
    rw [show a.pos.y - b.pos.y = -(b.pos.y - a.pos.y) from by ring] at hyB
    refine ⟨?_, ?_, ?_⟩
    · rw [hxA, hxB, neg_div, neg_neg]
    · rw [hyA, hyB, neg_div, neg_neg]
    · intro hne
      have hcomp : b.pos.x - a.pos.x ≠ 0 ∨ b.pos.y - a.pos.y ≠ 0 := by
        by_contra hcon
        push_neg at hcon
        apply hne
        ext
        · have := sub_eq_zero.mp hcon.1
          exact this.symm
        · have := sub_eq_zero.mp hcon.2
          exact this.symm
      have hs : 0 < (b.pos.x - a.pos.x) * (b.pos.x - a.pos.x) +
          (b.pos.y - a.pos.y) * (b.pos.y - a.pos.y) := by
        rcases hcomp with h | h
        · exact add_pos_of_pos_of_nonneg (mul_self_pos.mpr h) (mul_self_nonneg _)
        · exact add_pos_of_nonneg_of_pos (mul_self_nonneg _) (mul_self_pos.mpr h)
      have hd : 0 < Real.sqrt ((b.pos.x - a.pos.x) * (b.pos.x - a.pos.x) +
          (b.pos.y - a.pos.y) * (b.pos.y - a.pos.y)) := Real.sqrt_pos.mpr hs
      have hdivd : (if Real.sqrt ((b.pos.x - a.pos.x) * (b.pos.x - a.pos.x) +
            (b.pos.y - a.pos.y) * (b.pos.y - a.pos.y)) = 0 then (1 : ℝ)
          else Real.sqrt ((b.pos.x - a.pos.x) * (b.pos.x - a.pos.x) +
            (b.pos.y - a.pos.y) * (b.pos.y - a.pos.y))) =
          Real.sqrt ((b.pos.x - a.pos.x) * (b.pos.x - a.pos.x) +
            (b.pos.y - a.pos.y) * (b.pos.y - a.pos.y)) :=
        if_neg (ne_of_gt hd)
      have hms := Real.mul_self_sqrt (le_of_lt hs)
      unfold vecNormSq
      rw [hxA, hyA, hdivd, div_mul_div_comm, div_mul_div_comm, div_add_div_same,
        hms]
      exact div_self (ne_of_gt hs)

theorem circle_collision_symm_witness :
    circleSymmClaim { pos := { x := 0, y := 0 }, radius := 2 }
      { pos := { x := 1, y := 0 }, radius := 2 } :=
  circle_collision_symm _ _

theorem checkCircleCollision_coincident_eq (a b : CircleShape)
    (hpos : a.pos = b.pos) (hr : 0 < a.radius + b.radius) :
    checkCircleCollision a b =
      some { normal := { x := 0, y := 0 }, overlap := a.radius + b.radius,
             point := a.pos } := by
  unfold checkCircleCollision
  dsimp only
  have hdx : b.pos.x - a.pos.x = 0 := by rw [hpos]; ring
  have hdy : b.pos.y - a.pos.y = 0 := by rw [hpos]; ring
  rw [hdx, hdy]
  have h0 : Real.sqrt ((0 : ℝ) * 0 + 0 * 0) = 0 := by norm_num
  rw [h0, if_pos hr, if_pos rfl]
  norm_num

/-- Claim C7 (amended): for coincident centers with positive combined
radius, `checkCircleCollision` reports the collision without dividing by
zero — the `(distance || 1)` fallback divides by 1 — but the returned
normal is the zero vector, whose norm is 0, not a unit vector as the
specification demands. -/
theorem circle_collision_coincident (a b : CircleShape)
    (hpos : a.pos = b.pos) (hr : 0 < a.radius + b.radius) :
    coincidentCircleClaim a b := by
  refine ⟨checkCircleCollision_coincident_eq a b hpos hr, ?_⟩
  unfold vecNormSq
  norm_num

theorem circle_collision_coincident_witness :
    ({ pos := { x := 2, y := 3 }, radius := 1 } : CircleShape).pos =
        ({ pos := { x := 2, y := 3 }, radius := 1 } : CircleShape).pos ∧
      (0 : ℝ) <
        ({ pos := { x := 2, y := 3 }, radius := 1 } : CircleShape).radius +
          ({ pos := { x := 2, y := 3 }, radius := 1 } : CircleShape).radius ∧
      coincidentCircleClaim { pos := { x := 2, y := 3 }, radius := 1 }
        { pos := { x := 2, y := 3 }, radius := 1 } :=
  ⟨rfl, by norm_num,
    circle_collision_coincident _ _ rfl (by norm_num)⟩

/-- Counterexample to claim C6 as stated: two unit circles with the same
center `(0, 0)` collide in both orders, yet the returned normal is the
zero vector, which is not a unit vector. -/
theorem circle_symm_unit_normal_cex :
    checkCircleCollision { pos := { x := 0, y := 0 }, radius := 1 }
        { pos := { x := 0, y := 0 }, radius := 1 } =
      some { normal := { x := 0, y := 0 }, overlap := 2,
             point := { x := 0, y := 0 } } ∧
    vecNormSq { x := (0 : ℝ), y := 0 } ≠ 1 := by
  constructor
  · have h := checkCircleCollision_coincident_eq
      { pos := { x := 0, y := 0 }, radius := 1 }
      { pos := { x := 0, y := 0 }, radius := 1 } rfl (by norm_num)
    rw [h]
    norm_num
  · unfold vecNormSq
    norm_num

/-- Counterexample to claim C7 as stated: for the coincident circles of
radius 2 centered at `(1, 1)` the collision is reported (no division by
zero occurs — the divisor falls back to 1), but the returned normal is
the zero vector rather than a unit vector. -/
theorem circle_no_unit_normal_cex :
    checkCircleCollision { pos := { x := 1, y := 1 }, radius := 2 }
        { pos := { x := 1, y := 1 }, radius := 2 } =
      some { normal := { x := 0, y := 0 }, overlap := 4,
             point := { x := 1, y := 1 } } ∧
    vecNormSq { x := (0 : ℝ), y := 0 } ≠ 1 := by
  constructor
  · have h := checkCircleCollision_coincident_eq
      { pos := { x := 1, y := 1 }, radius := 2 }
      { pos := { x := 1, y := 1 }, radius := 2 } rfl (by norm_num)
    rw [h]
    norm_num
  · unfold vecNormSq
    norm_num

/-! ### Theorems: collision resolution (claim C8) -/

/-- Claim C8 (amended to the strict test the code performs): when the
relative velocity along the collision normal is strictly positive,
`resolveCollision` returns both bodies completely unchanged; when it is
exactly zero the impulse vanishes, so both velocities are unchanged (the
positional correction, however, still runs — see the counterexample). -/
theorem resolve_collision_skip (a b : Body) (col : CircleHit) :
    resolveSkipClaim a b col := by
  unfold resolveSkipClaim
  constructor
  · intro h
    unfold resolveCollision
    dsimp only
    rw [if_pos h]
  · intro h
    unfold resolveCollision
    dsimp only
    rw [h, if_neg (lt_irrefl 0)]
    split_ifs with hov
    · refine ⟨?_, ?_⟩ <;> ext <;> dsimp <;> ring
    · refine ⟨?_, ?_⟩ <;> ext <;> dsimp <;> ring
  
theorem resolve_collision_skip_witness :
    resolveSkipClaim resolveCexBodyA resolveCexBodyB resolveCexHit :=
  resolve_collision_skip _ _ _

/-- Counterexample to claim C8 as stated (with a non-strict `≥ 0` test):
for the two resting bodies of the concrete input the relative velocity
along the normal is 0, yet `resolveCollision` still moves body `a` from
`x = 0` to `x = 0.1` by the penetration correction, so the bodies are
not left completely unchanged. -/
theorem resolve_zero_dot_moves_cex :
    (resolveCexBodyA.velocity.x - resolveCexBodyB.velocity.x) *
        resolveCexHit.normal.x +
      (resolveCexBodyA.velocity.y - resolveCexBodyB.velocity.y) *
        resolveCexHit.normal.y = 0 ∧
    (resolveCollision resolveCexBodyA resolveCexBodyB resolveCexHit).1.position.x
      = 0.1 ∧
    resolveCexBodyA.position.x = 0 ∧ (0.1 : ℝ) ≠ 0 := by
  refine ⟨by norm_num [resolveCexBodyA, resolveCexBodyB, resolveCexHit],
    ?_, rfl, by norm_num⟩
  unfold resolveCollision resolveCexBodyA resolveCexBodyB resolveCexHit massOr1
  norm_num

/-! ### Theorems: friction integration (claim C2) -/

/-- Claim C2 (amended to `Physics.updatePhysics`, the routine that is
actually exponential): after `updatePhysics` the velocity equals the
integrated velocity scaled by `(1 - friction) ^ dt`, and for a coasting
body with `friction < 1` the update is frame-rate independent: two
updates over `dt₁` and `dt₂` give the same velocity as one update over
`dt₁ + dt₂`.  (`Sprite.update` violates this — see the
counterexample.) -/
theorem phys_exponential_friction (o : PhysBody) (dt₁ dt₂ : ℝ) :
    physExponentialClaim o dt₁ dt₂ := by
  refine ⟨⟨rfl, rfl⟩, ?_⟩
  intro hf hacc
  unfold updatePhysics
  dsimp only
  simp only [hacc]
  ext <;> dsimp <;> rw [Real.rpow_add hf] <;> ring

theorem phys_exponential_friction_witness :
    (0 : ℝ) < 1 - physWitnessBody.friction ∧
    physWitnessBody.acceleration = { x := 0, y := 0 } ∧
    physExponentialClaim physWitnessBody 1 2 :=
  ⟨by norm_num [physWitnessBody], rfl, phys_exponential_friction _ _ _⟩

/-- Counterexample to claim C2 as stated (covering every body update,
`Sprite.update` included): the sprite with friction 0.98 and velocity
`(100, 0)` updated with `dt = 1` ends with velocity `x = 98` — the code
multiplies by the fixed per-tick factor `friction` — whereas the
exponential form `(1 - friction) ^ dt` demanded by the claim would give
`100 · 0.02 = 2`. -/
theorem sprite_fixed_friction_cex :
    (spriteUpdate spriteFrictionCexBody 1).velocity.x = 98 ∧
    (spriteFrictionCexBody.velocity.x +
        spriteFrictionCexBody.acceleration.x * 1) *
      (1 - spriteFrictionCexBody.friction) ^ (1 : ℝ) = 2 ∧
    (98 : ℝ) ≠ 2 := by
  refine ⟨?_, ?_, by norm_num⟩
  · unfold spriteUpdate spriteFrictionCexBody
    dsimp only
    norm_num
  · unfold spriteFrictionCexBody
    dsimp only
    rw [Real.rpow_one]
    norm_num

/-! ### Theorems: boundary collision scan (claim C9) -/

theorem boundaryFold_goodRes (center : Vec2) (radius : ℝ)
    (segs : List (Vec2 × Vec2)) :
    (segs.foldl (boundaryFold center radius) noBoundaryCollision =
        noBoundaryCollision ∧
      ∀ seg ∈ segs, lineCircleCollision seg.1 seg.2 center radius = none) ∨
    ((segs.foldl (boundaryFold center radius) noBoundaryCollision).colliding
        = true ∧
      (∃ seg ∈ segs, ∃ h : CircleHit,
        lineCircleCollision seg.1 seg.2 center radius = some h ∧
        (segs.foldl (boundaryFold center radius) noBoundaryCollision).normal
          = h.normal ∧
        (segs.foldl (boundaryFold center radius) noBoundaryCollision).overlap
          = h.overlap ∧
        (segs.foldl (boundaryFold center radius) noBoundaryCollision).point
          = some h.point) ∧
      ∀ seg ∈ segs, ∀ h : CircleHit,
        lineCircleCollision seg.1 seg.2 center radius = some h →
        h.overlap ≤
          (segs.foldl (boundaryFold center radius) noBoundaryCollision).overlap) := by
  induction segs using List.reverseRecOn with
  | nil => exact Or.inl ⟨rfl, fun seg hseg => absurd hseg (List.not_mem_nil seg)⟩
  | append_singleton l s ih =>
    have hfold : (l ++ [s]).foldl (boundaryFold center radius) noBoundaryCollision
        = boundaryFold center radius
            (l.foldl (boundaryFold center radius) noBoundaryCollision) s := by
      rw [List.foldl_append]
      rfl
    rcases ih with ⟨hR, hnone⟩ | ⟨hcol, ⟨seg0, hseg0, h0, hc0, hn0, ho0, hp0⟩, hbound⟩
    · cases hc : lineCircleCollision s.1 s.2 center radius with
      | none =>
        have hstep : boundaryFold center radius
            (l.foldl (boundaryFold center radius) noBoundaryCollision) s =
            l.foldl (boundaryFold center radius) noBoundaryCollision := by
          unfold boundaryFold
          rw [hc]
        refine Or.inl ⟨by rw [hfold, hstep, hR], ?_⟩
        intro seg hseg
        rcases List.mem_append.mp hseg with hmem | hmem
        · exact hnone seg hmem
        · rw [List.mem_singleton.mp hmem]
          exact hc
      | some h =>
        have hRc : (l.foldl (boundaryFold center radius) noBoundaryCollision).colliding
            = false := by rw [hR]; rfl
        have hstep : boundaryFold center radius
            (l.foldl (boundaryFold center radius) noBoundaryCollision) s =
            { colliding := true, normal := h.normal, overlap := h.overlap,
              point := some h.point } := by
          unfold boundaryFold
          rw [hc]
          exact if_pos (Or.inl hRc)
        rw [hfold, hstep]
        refine Or.inr ⟨rfl, ⟨s, by simp, h, hc, rfl, rfl, rfl⟩, ?_⟩
        intro seg hseg h' hc'
        rcases List.mem_append.mp hseg with hmem | hmem
        · rw [hnone seg hmem] at hc'
          cases hc'
        · rw [List.mem_singleton.mp hmem] at hc'
          rw [hc] at hc'
          rw [← Option.some.inj hc']
    · cases hc : lineCircleCollision s.1 s.2 center radius with
      | none =>
        have hstep : boundaryFold center radius
            (l.foldl (boundaryFold center radius) noBoundaryCollision) s =
            l.foldl (boundaryFold center radius) noBoundaryCollision := by
          unfold boundaryFold
          rw [hc]
        rw [hfold, hstep]
        refine Or.inr ⟨hcol,
          ⟨seg0, List.mem_append.mpr (Or.inl hseg0), h0, hc0, hn0, ho0, hp0⟩, ?_⟩
        intro seg hseg h' hc'
        rcases List.mem_append.mp hseg with hmem | hmem
        · exact hbound seg hmem h' hc'
        · rw [List.mem_singleton.mp hmem] at hc'
          rw [hc] at hc'
          cases hc'
      | some h =>
        by_cases hgt : (l.foldl (boundaryFold center radius) noBoundaryCollision).overlap
            < h.overlap
        · have hstep : boundaryFold center radius
              (l.foldl (boundaryFold center radius) noBoundaryCollision) s =
              { colliding := true, normal := h.normal, overlap := h.overlap,
                point := some h.point } := by
            unfold boundaryFold
            rw [hc]
            exact if_pos (Or.inr hgt)
          rw [hfold, hstep]
          refine Or.inr ⟨rfl, ⟨s, by simp, h, hc, rfl, rfl, rfl⟩, ?_⟩
          intro seg hseg h' hc'
          rcases List.mem_append.mp hseg with hmem | hmem
          · exact le_trans (hbound seg hmem h' hc') (le_of_lt hgt)
          · rw [List.mem_singleton.mp hmem] at hc'
            rw [hc] at hc'
            rw [← Option.some.inj hc']
        · have hcond : ¬((l.foldl (boundaryFold center radius)
              noBoundaryCollision).colliding = false ∨
              (l.foldl (boundaryFold center radius)
                noBoundaryCollision).overlap < h.overlap) := by
            intro hor
            rcases hor with hf | hlt
            · rw [hcol] at hf
              cases hf
            · exact hgt hlt
          have hstep : boundaryFold center radius
              (l.foldl (boundaryFold center radius) noBoundaryCollision) s =
              l.foldl (boundaryFold center radius) noBoundaryCollision := by
            unfold boundaryFold
            rw [hc]
            exact if_neg hcond
          rw [hfold, hstep]
          refine Or.inr ⟨hcol,
            ⟨seg0, List.mem_append.mpr (Or.inl hseg0), h0, hc0, hn0, ho0, hp0⟩, ?_⟩
          intro seg hseg h' hc'
          rcases List.mem_append.mp hseg with hmem | hmem
          · exact hbound seg hmem h' hc'
          · rw [List.mem_singleton.mp hmem] at hc'
            rw [hc] at hc'
            rw [← Option.some.inj hc']
            exact not_lt.mp hgt

/-- Claim C9: `checkBoundaryCollision` scans every inner and outer
boundary segment; when no segment collides it returns the non-colliding
default result, and when some segment collides it returns a colliding
result realized by one of the segments whose overlap is maximal among
all colliding segments (the deepest penetration wins, not the first
found). -/
theorem boundary_collision_deepest (inner outer : List (Vec2 × Vec2))
    (center : Vec2) (radius : ℝ) :
    boundaryDeepestClaim inner outer center radius := by
  unfold boundaryDeepestClaim checkBoundaryCollision
  rcases boundaryFold_goodRes center radius (inner ++ outer) with
    ⟨hR, hnone⟩ | ⟨hcol, hex, hbound⟩
  · refine ⟨fun _ => hR, ?_, ?_⟩
    · intro seg hseg h hc
      rw [hnone seg hseg] at hc
      cases hc
    · intro hcontra
      rw [hR] at hcontra
      exact absurd hcontra (by simp [noBoundaryCollision])
  · refine ⟨?_, ?_, fun _ => hex⟩
    · intro hall
      obtain ⟨seg0, hs0, h0, hc0, _⟩ := hex
      rw [hall seg0 hs0] at hc0
      cases hc0
    · intro seg hseg h hc
      exact ⟨hcol, hbound seg hseg h hc⟩

theorem boundary_collision_deepest_witness :
    boundaryDeepestClaim
      [({ x := 0, y := -1 }, { x := 0, y := 1 })]
      [({ x := 5, y := -1 }, { x := 5, y := 1 })]
      { x := 1, y := 0 } 2 :=
  boundary_collision_deepest _ _ _ _
